import Mathlib

/-!
Verification of the DeepChartAI backend orchestration pipeline.

The Python sources are shallowly embedded here:
* `backend/utils.py`        → `validate_dataset`, `sanitize_column_name`
* `backend/llm_integration.py` → `interpret_query` (the Gemini call and
  `json.loads` outcome is an explicit `LLMOutcome` input)
* `backend/chart_generator.py` → `create_chart` (the plotly-express call
  outcome is an explicit `Except` input)
* `backend/database.py`     → `save_embeddings` (the Qdrant `upsert`
  outcome is an explicit `Except` input)
* `backend/routes.py`       → `generate_chart_core`
* `backend/app.py`          → `dispatch_chart_request`

Tables are modelled by `DataFrame` (named columns over JSON scalar cells);
Python/JSON dynamic values by the `Json` inductive.  External collaborator
calls (Gemini, plotly, Qdrant) are modelled by passing their outcome as an
explicit argument, since the repository delegates those computations.
-/

/-- Dynamic JSON values, as produced by Python's `json.loads`:
`null`, booleans, numbers (numeric cells in this pipeline are integers),
strings, arrays and objects (association lists of fields). -/
inductive Json where
  | null : Json
  | bool : Bool → Json
  | num : Int → Json
  | str : String → Json
  | arr : List Json → Json
  | obj : List (String × Json) → Json

/-- A parsed pandas `DataFrame`: a list of column names and a list of rows,
each row holding one JSON scalar per column. -/
structure DataFrame where
  cols : List String
  rows : List (List Json)

/-- pandas `df.empty`: true when either axis has length 0. -/
def DataFrame.empty (df : DataFrame) : Bool :=
  df.rows.isEmpty || df.cols.isEmpty

/-- `backend/utils.py::validate_dataset`.  Raised `ValueError`s are
modelled as `Except.error` with the source's message.  The uniqueness
test mirrors `len(set(df.columns)) != len(df.columns)` via `List.dedup`. -/
def validate_dataset (df : DataFrame) : Except String Unit :=
  if df.empty then Except.error "Dataset is empty."
  else if df.cols.length < 2 then Except.error "Dataset must have at least 2 columns."
  else if df.cols.dedup.length ≠ df.cols.length then Except.error "Column names must be unique."
  else Except.ok ()

/-- Python's `str.strip()` on a character list: drop leading and trailing
whitespace.  (Lean's `Char.isWhitespace` covers space/tab/CR/LF, the
whitespace occurring in this pipeline's ASCII column names.) -/
def stripChars (l : List Char) : List Char :=
  ((l.dropWhile Char.isWhitespace).reverse.dropWhile Char.isWhitespace).reverse

/-- Python's `str.replace(" ", "_")`: the pattern is a single character,
so the replacement is a character map. -/
def replaceSpaceChars (l : List Char) : List Char :=
  l.map (fun c => if c = ' ' then '_' else c)

/-- Python's `str.lower()` restricted to basic latin letters (the data in
this pipeline is ASCII), i.e. Lean's `Char.toLower` mapped over the
characters. -/
def lowerChars (l : List Char) : List Char :=
  l.map Char.toLower

/-- `backend/utils.py::sanitize_column_name`:
`name.strip().replace(" ", "_").lower()`. -/
def sanitize_column_name (name : String) : String :=
  String.mk (lowerChars (replaceSpaceChars (stripChars name.data)))

/-- Outcome of the Gemini `generate_content` call inside
`interpret_query`, together with the `json.loads` outcome on its text:
`raised` models the call (or reading its text) raising an exception;
`text none` models a response whose text is not parseable as JSON
(`json.JSONDecodeError`); `text (some j)` models a response parsing to
the JSON value `j`. -/
inductive LLMOutcome where
  | raised : LLMOutcome
  | text : Option Json → LLMOutcome

/-- The keys of a parsed JSON object (a Python dict). -/
def keysOf (fields : List (String × Json)) : List String :=
  fields.map Prod.fst

/-- Indexing a Python dict built by `json.loads`: duplicate keys keep the
last binding; a missing key is modelled as `Json.null` (the source only
indexes keys it has already checked for membership). -/
def dictLookup (fields : List (String × Json)) (k : String) : Json :=
  match fields.reverse.lookup k with
  | some v => v
  | none => Json.null

/-- Python `v in columns` for a dynamic `v` against a list of strings:
true exactly when `v` is a string occurring in the list. -/
def jsonInStrList (v : Json) (columns : List String) : Bool :=
  match v with
  | Json.str s => columns.contains s
  | _ => false

/-- The chart-config dict flowing out of the resolver.  Values are
dynamic (`Json`): the collaborator's dict is passed through verbatim. -/
structure PyChartConfig where
  chart_type : Json
  x : Json
  y : Json

/-- The default config built at every fallback site of
`interpret_query`:
`{"chart_type": "scatter", "x": columns[0], "y": columns[1]}` when
`len(columns) >= 2`, else `{"chart_type": "scatter", "x": columns[0],
"y": None}`.  `columns[0]` is modelled with `getD` (the source would
raise `IndexError` on an empty column list, unreachable after
validation). -/
def default_chart_config (columns : List String) : PyChartConfig :=
  if 2 ≤ columns.length then
    ⟨Json.str "scatter", Json.str (columns.getD 0 ""), Json.str (columns.getD 1 "")⟩
  else
    ⟨Json.str "scatter", Json.str (columns.getD 0 ""), Json.null⟩

/-- `backend/llm_integration.py::interpret_query`.  The Gemini call and
JSON decode are summarised by `outcome`; every guard of the source is
mirrored: call raised → default; text unparseable → default; parsed
value not a dict or missing one of the keys `chart_type`/`x`/`y` →
default; `x` or `y` not among `columns` → default; otherwise the parsed
dict is returned as-is. -/
def interpret_query (outcome : LLMOutcome) (columns : List String) : PyChartConfig :=
  match outcome with
  | LLMOutcome.raised => default_chart_config columns
  | LLMOutcome.text none => default_chart_config columns
  | LLMOutcome.text (some j) =>
    match j with
    | Json.obj fields =>
      if ["chart_type", "x", "y"].all (fun k => (keysOf fields).contains k) then
        if jsonInStrList (dictLookup fields "x") columns
            && jsonInStrList (dictLookup fields "y") columns then
          ⟨dictLookup fields "chart_type", dictLookup fields "x", dictLookup fields "y"⟩
        else default_chart_config columns
      else default_chart_config columns
    | _ => default_chart_config columns

/-- Python truthiness of an `Optional[str]` (`if chart_type:`): `None`
and the empty string are falsy. -/
def py_truthy_str (o : Option String) : Bool :=
  match o with
  | some s => !(s == "")
  | none => false

/-- The chart-config resolution step of `backend/routes.py::generate_chart`
(lines 69-74): `if chart_type:` takes the explicit dict
`{"chart_type": chart_type, "x": df.columns[0], "y": df.columns[1]}`,
else it delegates to `interpret_query`. -/
def resolve_chart_config (chart_type : Option String) (outcome : LLMOutcome)
    (columns : List String) : PyChartConfig :=
  if py_truthy_str chart_type then
    ⟨Json.str (chart_type.getD ""), Json.str (columns.getD 0 ""), Json.str (columns.getD 1 "")⟩
  else
    interpret_query outcome columns

/-- `backend/chart_generator.py::create_chart`.  `chart_type` is the
dynamic value taken from the resolved config; `px_outcome` is the
outcome of the delegated plotly-express call (its `to_dict()` result on
success, the raised exception's message on failure).  The source builds
the figure inside a `try:` whose `except Exception` re-raises every
failure — including the `ValueError("Unsupported chart type: ...")`
raised by the `else:` branch — as `ValueError("Failed to generate
chart.")`. -/
def create_chart (chart_type : Json) (px_outcome : Except String Json) :
    Except String Json :=
  let attempt : Except String Json :=
    match chart_type with
    | Json.str s =>
      if s = "line" then px_outcome
      else if s = "bar" then px_outcome
      else if s = "pie" then px_outcome
      else if s = "scatter" then px_outcome
      else if s = "heatmap" then px_outcome
      else Except.error "Unsupported chart type"
    | _ => Except.error "Unsupported chart type"
  match attempt with
  | Except.ok fig => Except.ok fig
  | Except.error _ => Except.error "Failed to generate chart."

/-- A Qdrant `PointStruct` as built by `save_embeddings`: the id is
`hash((i, filename))`, modelled by the pair itself; the payload is the
row's column/value dict plus the optional filename. -/
structure QPoint where
  id : Nat × Option String
  vector : List Json
  payload : List (String × Json)

/-- `df.iloc[i].to_dict()` plus the `if filename:` payload extension of
`save_embeddings` (an empty-string filename is falsy and not attached). -/
def row_payload (df : DataFrame) (i : Nat) (filename : Option String) :
    List (String × Json) :=
  (df.cols.zip (df.rows.getD i [])) ++
    (if py_truthy_str filename then [("filename", Json.str (filename.getD ""))] else [])

/-- One iteration of the point-building loop of `save_embeddings`:
`vector = embeddings[i]` raises `IndexError` past the end of the
embeddings list. -/
def build_point (df : DataFrame) (embeddings : List (List Json))
    (filename : Option String) (i : Nat) : Except String QPoint :=
  match embeddings[i]? with
  | none => Except.error "list index out of range"
  | some v => Except.ok ⟨(i, filename), v, row_payload df i filename⟩

/-- `backend/database.py::save_embeddings`.  Builds one point per row
(`for i in range(len(df))`), indexing `embeddings[i]` for each; then
performs the Qdrant upsert, whose outcome is the explicit
`upsert_outcome` input.  The `except` clause of the source logs and
re-raises, so every failure propagates (`Except.error`).  On success
the list of upserted points is returned for inspection. -/
def save_embeddings (df : DataFrame) (embeddings : List (List Json))
    (filename : Option String) (upsert_outcome : Except String Unit) :
    Except String (List QPoint) :=
  match (List.range df.rows.length).mapM (build_point df embeddings filename) with
  | Except.error e => Except.error e
  | Except.ok pts =>
    match upsert_outcome with
    | Except.ok _ => Except.ok pts
    | Except.error e => Except.error e

/-- The column-name sanitization step of `generate_chart`:
`df.columns = [sanitize_column_name(col) for col in df.columns]`. -/
def sanitize_df (df : DataFrame) : DataFrame :=
  ⟨df.cols.map sanitize_column_name, df.rows⟩

/-- The column values that `to_dict` associates with label `c`: the dict
is built by iterating the selected columns in frame order, each
assignment overwriting the previous one, so on a frame with duplicated
labels the LAST column named `c` wins (on a unique-label frame this is
simply that column). -/
def col_values (df : DataFrame) (c : String) : List Json :=
  match (df.cols.zip (List.range df.cols.length)).reverse.lookup c with
  | some i => df.rows.map (fun r => r.getD i Json.null)
  | none => []

/-- `df[[xs, ys]].to_dict(orient="list")`: a dict keyed by the selected
column names, each mapped to the value list `to_dict` leaves for that
label (a single key when `xs = ys`, and the last duplicate winning per
label, since Python dict keys are unique). -/
def to_dict_list (df : DataFrame) (xs ys : String) : List (String × List Json) :=
  if xs == ys then [(xs, col_values df xs)]
  else [(xs, col_values df xs), (ys, col_values df ys)]

/-- The success dict returned by `generate_chart`. -/
structure ChartResponse where
  chart_type : Json
  x_axis : String
  y_axis : String
  data : List (String × List Json)
  plotly_data : Json
  status : String

/-- Python truthiness of the embedding (`if embedding:`): `None` and the
empty list are falsy. -/
def py_truthy_list (o : Option (List Json)) : Bool :=
  match o with
  | some l => !l.isEmpty
  | none => false

/-- The embedding-persistence step of `generate_chart` (lines 85-92):
`save_embeddings(df, [embedding], filename=filename)` wrapped in a
`try/except` that logs and continues, so every failure of the call is
absorbed.  (In the source the call site would in fact always raise
`NameError` — `routes.py` never imports `save_embeddings` — which the
same `except` absorbs.) -/
def attempt_save (df : DataFrame) (embedding : Option (List Json))
    (filename : Option String) (upsert_outcome : Except String Unit) :
    Except String Unit :=
  if py_truthy_list embedding then
    match save_embeddings df [embedding.getD []] filename upsert_outcome with
    | Except.ok _ => Except.ok ()
    | Except.error _ => Except.ok ()
  else Except.ok ()

/-- `backend/routes.py::generate_chart`, from the validation step on
(data loading is pandas' concern; the parsed `df` is the input).  The
stages mirror the source in order: validate; sanitize column names;
resolve the chart config (explicit `chart_type` or `interpret_query`);
check the resolved axes against `df.columns` (a non-string axis value is
never a member); render via `create_chart`; best-effort embedding
persistence; build the response dict with `data =
df[[x_axis, y_axis]].to_dict(orient="list")` and status `"success"`. -/
def generate_chart_core (df : DataFrame) (chart_type : Option String)
    (outcome : LLMOutcome) (px_outcome : Except String Json)
    (embedding : Option (List Json)) (upsert_outcome : Except String Unit)
    (filename : Option String) : Except String ChartResponse :=
  match validate_dataset df with
  | Except.error e => Except.error e
  | Except.ok _ =>
    match (resolve_chart_config chart_type outcome (sanitize_df df).cols).x,
        (resolve_chart_config chart_type outcome (sanitize_df df).cols).y with
    | Json.str xs, Json.str ys =>
      if xs ∈ (sanitize_df df).cols ∧ ys ∈ (sanitize_df df).cols then
        match create_chart
            (resolve_chart_config chart_type outcome (sanitize_df df).cols).chart_type
            px_outcome with
        | Except.error e => Except.error e
        | Except.ok fig =>
          match attempt_save (sanitize_df df) embedding filename upsert_outcome with
          | Except.error e => Except.error e
          | Except.ok _ =>
            Except.ok
              ⟨(resolve_chart_config chart_type outcome (sanitize_df df).cols).chart_type,
                xs, ys, to_dict_list (sanitize_df df) xs ys, fig, "success"⟩
      else Except.error "Columns not found in dataset"
    | _, _ => Except.error "Columns not found in dataset"

/-- Python's `str.endswith(suffix)`: suffix test on the characters. -/
def py_endswith (s suffix : String) : Bool :=
  suffix.data.isSuffixOf s.data

/-- The data-source dispatch of `backend/app.py::create_chart` (lines
56-76): an `if file: ... elif json_data: ... elif manual_data: ... else`
chain.  A file input is a (filename, content) pair; a present upload
object is always truthy, while the string fields use Python truthiness.
The result is `(data_type, content, filename)` or the raised
`HTTPException`'s detail message. -/
def dispatch_chart_request (file : Option (String × String))
    (json_data : Option String) (manual_data : Option String) :
    Except String (String × String × Option String) :=
  match file with
  | some (fname, content) =>
    if py_endswith fname ".csv" || py_endswith fname ".json" then
      Except.ok ("file", content, some fname)
    else Except.error "Only CSV and JSON files are supported"
  | none =>
    if py_truthy_str json_data then
      Except.ok ("json", json_data.getD "", none)
    else if py_truthy_str manual_data then
      Except.ok ("manual", manual_data.getD "", none)
    else Except.error "No data provided"

/-- The table parsed from `manual_data = "a,b\n1,2\n3,4"` (the spec's
end-to-end example). -/
def two_row_df : DataFrame :=
  ⟨["a", "b"], [[Json.num 1, Json.num 2], [Json.num 3, Json.num 4]]⟩

/-- The per-character action of `replace(" ", "_")` followed by
`lower()`. -/
def sanitizeChar (c : Char) : Char :=
  Char.toLower (if c = ' ' then '_' else c)

theorem char_toNat_inj {c d : Char} (h : c.toNat = d.toNat) : c = d :=
  Char.eq_of_val_eq (UInt32.toNat.inj h)

theorem toNat_charOfNat_valid (n : Nat) (h : n.isValidChar) :
    (Char.ofNat n).toNat = n := by
  unfold Char.ofNat
  rw [dif_pos h]
  rfl

theorem toLower_of_upper {c : Char} (h65 : 65 ≤ c.toNat) (h90 : c.toNat ≤ 90) :
    (Char.toLower c).toNat = c.toNat + 32 := by
  unfold Char.toLower
  rw [if_pos ⟨h65, h90⟩]
  exact toNat_charOfNat_valid _ (Or.inl (by omega))

theorem toLower_of_not_upper {c : Char} (h : ¬(65 ≤ c.toNat ∧ c.toNat ≤ 90)) :
    Char.toLower c = c := by
  unfold Char.toLower
  rw [if_neg h]

theorem toLower_idem (c : Char) :
    Char.toLower (Char.toLower c) = Char.toLower c := by
  by_cases h : 65 ≤ c.toNat ∧ c.toNat ≤ 90
  · have h2 := toLower_of_upper h.1 h.2
    apply toLower_of_not_upper
    omega
  · rw [toLower_of_not_upper h, toLower_of_not_upper h]

theorem toLower_ne_space {c : Char} (h : c ≠ ' ') : Char.toLower c ≠ ' ' := by
  by_cases hu : 65 ≤ c.toNat ∧ c.toNat ≤ 90
  · have h2 := toLower_of_upper hu.1 hu.2
    intro he
    rw [he] at h2
    have h32 : (' ' : Char).toNat = 32 := rfl
    omega
  · rw [toLower_of_not_upper hu]
    exact h

theorem isWhitespace_toNat {c : Char} (h : c.isWhitespace = true) :
    c.toNat = 32 ∨ c.toNat = 9 ∨ c.toNat = 13 ∨ c.toNat = 10 := by
  unfold Char.isWhitespace at h
  simp only [Bool.or_eq_true, decide_eq_true_eq] at h
  rcases h with (((h | h) | h) | h) <;> subst h <;> simp

theorem sanitizeChar_not_ws {c : Char} (h : ¬ c.isWhitespace = true) :
    ¬ (sanitizeChar c).isWhitespace = true := by
  have hc : c ≠ ' ' := by
    intro he
    exact h (by subst he; rfl)
  unfold sanitizeChar
  rw [if_neg hc]
  by_cases hu : 65 ≤ c.toNat ∧ c.toNat ≤ 90
  · have h2 := toLower_of_upper hu.1 hu.2
    intro hw
    rcases isWhitespace_toNat hw with h3 | h3 | h3 | h3 <;> omega
  · rw [toLower_of_not_upper hu]
    exact h

theorem sanitizeChar_idem (c : Char) :
    sanitizeChar (sanitizeChar c) = sanitizeChar c := by
  by_cases hc : c = ' '
  · subst hc
    decide
  · have h1 : sanitizeChar c = Char.toLower c := by
      unfold sanitizeChar
      rw [if_neg hc]
    rw [h1]
    have hsp : Char.toLower c ≠ ' ' := toLower_ne_space hc
    unfold sanitizeChar
    rw [if_neg hsp, toLower_idem]

theorem head?_dropWhile_neg (p : α → Bool) (l : List α) (x : α)
    (hx : (l.dropWhile p).head? = some x) : ¬ p x = true := by
  have h := List.head?_dropWhile_not p l
  rw [hx] at h
  simp only [h, Bool.false_eq_true, not_false_eq_true]

theorem dropWhile_eq_self_of_head (p : α → Bool) (l : List α)
    (h : ∀ x, l.head? = some x → ¬ p x = true) : l.dropWhile p = l := by
  cases l with
  | nil => rfl
  | cons a t => exact List.dropWhile_cons_of_neg (h a rfl)

theorem getLast?_dropWhile_of_ne_nil (p : α → Bool) (l : List α)
    (h : l.dropWhile p ≠ []) : (l.dropWhile p).getLast? = l.getLast? := by
  induction l with
  | nil => simp at h
  | cons a t ih =>
    by_cases hpa : p a = true
    · rw [List.dropWhile_cons_of_pos hpa] at h ⊢
      cases t with
      | nil => simp at h
      | cons b u =>
        rw [ih h, List.getLast?_cons_cons]
    · rw [List.dropWhile_cons_of_neg hpa]

theorem strip_head (l : List Char) (x : Char)
    (hx : (stripChars l).head? = some x) : ¬ x.isWhitespace = true := by
  unfold stripChars at hx
  rw [List.head?_reverse] at hx
  have hne : (l.dropWhile Char.isWhitespace).reverse.dropWhile Char.isWhitespace ≠ [] := by
    intro he
    rw [he] at hx
    simp at hx
  rw [getLast?_dropWhile_of_ne_nil _ _ hne, List.getLast?_reverse] at hx
  exact head?_dropWhile_neg _ _ x hx

theorem strip_last (l : List Char) (x : Char)
    (hx : (stripChars l).getLast? = some x) : ¬ x.isWhitespace = true := by
  unfold stripChars at hx
  rw [List.getLast?_reverse] at hx
  exact head?_dropWhile_neg _ _ x hx

theorem strip_eq_self (l : List Char)
    (hh : ∀ x, l.head? = some x → ¬ x.isWhitespace = true)
    (hl : ∀ x, l.getLast? = some x → ¬ x.isWhitespace = true) :
    stripChars l = l := by
  unfold stripChars
  rw [dropWhile_eq_self_of_head _ _ hh]
  rw [dropWhile_eq_self_of_head _ _
    (fun x hx => hl x (by rwa [List.head?_reverse] at hx))]
  exact List.reverse_reverse l

theorem lower_replace_eq_map (m : List Char) :
    lowerChars (replaceSpaceChars m) = m.map sanitizeChar := by
  unfold lowerChars replaceSpaceChars sanitizeChar
  rw [List.map_map]
  rfl

theorem sanitize_list_idem (l : List Char) :
    lowerChars (replaceSpaceChars (stripChars
      (lowerChars (replaceSpaceChars (stripChars l))))) =
    lowerChars (replaceSpaceChars (stripChars l)) := by
  rw [lower_replace_eq_map (stripChars l)]
  have hstrip : stripChars ((stripChars l).map sanitizeChar) =
      (stripChars l).map sanitizeChar := by
    apply strip_eq_self
    · intro x hx
      rw [List.head?_map] at hx
      cases hm : (stripChars l).head? with
      | none => rw [hm] at hx; exact Option.noConfusion hx
      | some c =>
        rw [hm] at hx
        simp only [Option.map_some'] at hx
        cases hx
        exact sanitizeChar_not_ws (strip_head l c hm)
    · intro x hx
      rw [List.getLast?_map] at hx
      cases hm : (stripChars l).getLast? with
      | none => rw [hm] at hx; exact Option.noConfusion hx
      | some c =>
        rw [hm] at hx
        simp only [Option.map_some'] at hx
        cases hx
        exact sanitizeChar_not_ws (strip_last l c hm)
  rw [hstrip, lower_replace_eq_map, List.map_map]
  exact List.map_congr_left (fun c _ => sanitizeChar_idem c)

/-- C5: for every table, `validate_dataset` returns without error if and
only if the table has at least 1 row, at least 2 columns, and
pairwise-unique column names; otherwise it fails with the
`InvalidDataset` error (`ValueError`, modelled as `Except.error`).  The
function reads the table and never modifies it. -/
theorem validate_dataset_ok_iff (df : DataFrame) :
    validate_dataset df = Except.ok () ↔
      (1 ≤ df.rows.length ∧ 2 ≤ df.cols.length ∧ df.cols.Nodup) := by
  have hd : (df.cols.dedup.length = df.cols.length) ↔ df.cols.Nodup := by
    constructor
    · intro h
      have heq := (List.dedup_sublist df.cols).eq_of_length h
      rw [← heq]
      exact List.nodup_dedup df.cols
    · intro h
      rw [List.dedup_eq_self.mpr h]
  unfold validate_dataset DataFrame.empty
  constructor
  · intro h
    by_cases h1 : (df.rows.isEmpty || df.cols.isEmpty) = true
    · rw [if_pos h1] at h
      exact Except.noConfusion h
    · rw [if_neg h1] at h
      by_cases h2 : df.cols.length < 2
      · rw [if_pos h2] at h
        exact Except.noConfusion h
      · rw [if_neg h2] at h
        by_cases h3 : df.cols.dedup.length ≠ df.cols.length
        · rw [if_pos h3] at h
          exact Except.noConfusion h
        · refine ⟨?_, by omega, hd.mp (not_ne_iff.mp h3)⟩
          simp only [Bool.or_eq_true, List.isEmpty_iff] at h1
          push_neg at h1
          have := List.length_pos.mpr h1.1
          omega
  · rintro ⟨hr, hc, hn⟩
    have hrne : df.rows ≠ [] := by
      intro he
      rw [he] at hr
      simp at hr
    have hcne : df.cols ≠ [] := by
      intro he
      rw [he] at hc
      simp at hc
    rw [if_neg (by simp [List.isEmpty_iff, hrne, hcne]),
      if_neg (by omega : ¬ df.cols.length < 2),
      if_neg (not_ne_iff.mpr (hd.mpr hn))]

/-- C6: `sanitize_column_name` trims surrounding whitespace, replaces
spaces with underscores and lowercases; `" Revenue Growth "` maps to
`"revenue_growth"`, the empty string to itself, and the function is
idempotent on every string. -/
theorem sanitize_column_name_correct :
    sanitize_column_name " Revenue Growth " = "revenue_growth" ∧
    sanitize_column_name "" = "" ∧
    ∀ s : String, sanitize_column_name (sanitize_column_name s) =
      sanitize_column_name s := by
  refine ⟨by rfl, by rfl, ?_⟩
  intro s
  unfold sanitize_column_name
  exact congrArg String.mk (sanitize_list_idem s.data)

/-- C2 (failing input): on the 2-row table of the spec's end-to-end
example, `save_embeddings` called the way `generate_chart` calls it —
with the single per-request embedding wrapped in a one-element list —
raises `IndexError` (`embeddings[1]` is out of range) instead of
building one record per row with the vector repeated; no record is
upserted. -/
theorem save_embeddings_single_vector_fails_on_two_rows :
    save_embeddings two_row_df [[Json.num 7]] none (Except.ok ()) =
      Except.error "list index out of range" := rfl

/-- C2 (contrast): `save_embeddings` does build one record per row, with
ids derived from (row-index, filename) and each row's column values as
payload — but only when given one embedding per row, taking
`embeddings[i]` for row `i` rather than repeating a single vector. -/
theorem save_embeddings_per_row_vectors :
    save_embeddings two_row_df [[Json.num 7], [Json.num 8]] (some "f.csv")
        (Except.ok ()) =
      Except.ok
        [⟨(0, some "f.csv"), [Json.num 7],
          [("a", Json.num 1), ("b", Json.num 2), ("filename", Json.str "f.csv")]⟩,
         ⟨(1, some "f.csv"), [Json.num 8],
          [("a", Json.num 3), ("b", Json.num 4), ("filename", Json.str "f.csv")]⟩] := rfl

/-- C4 (counterexample): an unsupported chart type (`"wedge"`, even with
a succeeding renderer) and an internal rendering failure on a supported
type (`"line"`) produce the *same* error value
`ValueError("Failed to generate chart.")` — the source raises its
`Unsupported chart type` error inside the `try:`, so the broad `except`
re-wraps both failure causes identically and the caller cannot tell them
apart. -/
theorem create_chart_error_kinds_indistinguishable :
    create_chart (Json.str "wedge") (Except.ok Json.null) =
        create_chart (Json.str "line") (Except.error "non-numeric y") ∧
    create_chart (Json.str "wedge") (Except.ok Json.null) =
        Except.error "Failed to generate chart." :=
  ⟨rfl, rfl⟩

/-- C4 (amended): for every chart-type string outside
{line, bar, pie, scatter, heatmap} `create_chart` fails, and every
internal rendering failure for a supported type also fails, both with
the single error kind `ValueError("Failed to generate chart.")`; the two
causes are not distinguishable to the caller. -/
theorem create_chart_single_failure_kind (s t : String)
    (px : Except String Json) (msg : String)
    (hs : s ∉ ["line", "bar", "pie", "scatter", "heatmap"])
    (ht : t ∈ ["line", "bar", "pie", "scatter", "heatmap"]) :
    create_chart (Json.str s) px = Except.error "Failed to generate chart." ∧
    create_chart (Json.str t) (Except.error msg) =
      Except.error "Failed to generate chart." := by
  simp only [List.mem_cons, List.not_mem_nil, or_false] at hs ht
  push_neg at hs
  obtain ⟨n1, n2, n3, n4, n5⟩ := hs
  constructor
  · simp [create_chart, n1, n2, n3, n4, n5]
  · rcases ht with h | h | h | h | h <;> subst h <;> rfl

/-- C4 (witness for the amended theorem): instantiated at the
unsupported type "wedge" and a failing "line" render. -/
theorem create_chart_single_failure_kind_witness :
    create_chart (Json.str "wedge") (Except.ok (Json.num 0)) =
      Except.error "Failed to generate chart." ∧
    create_chart (Json.str "line") (Except.error "boom") =
      Except.error "Failed to generate chart." :=
  create_chart_single_failure_kind "wedge" "line" (Except.ok (Json.num 0)) "boom"
    (by simp) (by simp)

/-- A valid input table whose raw column names "A" and "a" are unique but
collide after sanitization. -/
def case_collision_df : DataFrame :=
  ⟨["A", "a"], [[Json.num 1, Json.num 2]]⟩

/-- C10: column-name uniqueness is checked only on the raw names.  The
table with columns "A" and "a" passes validation; the table the pipeline
then hands to every downstream step has the sanitized column list
["a", "a"], no longer duplicate-free — the uniqueness invariant is
broken and never re-checked.  The run proceeds past validation,
sanitization, config resolution and the axis-membership check all the
way into the renderer: with the renderer raising (as plotly does on a
duplicated-label frame) the request fails with the *render* error, not
with any column-uniqueness error. -/
theorem sanitization_breaks_column_uniqueness :
    validate_dataset case_collision_df = Except.ok () ∧
    (sanitize_df case_collision_df).cols = ["a", "a"] ∧
    ¬ (sanitize_df case_collision_df).cols.Nodup ∧
    generate_chart_core case_collision_df (some "bar") LLMOutcome.raised
        (Except.error "bar requires unique column labels") none
        (Except.ok ()) none =
      Except.error "Failed to generate chart." := by
  refine ⟨rfl, rfl, ?_, rfl⟩
  have hcols : (sanitize_df case_collision_df).cols = ["a", "a"] := rfl
  rw [hcols]
  decide

/-- C9 (counterexample): a request supplying both a file and json_data is
accepted as a file request — the `if/elif` chain silently prefers the
file — contradicting "a request supplying more than one of the three
fields is not accepted as a single-source request". -/
theorem dispatch_multi_source_accepted :
    dispatch_chart_request (some ("d.csv", "a,b\n1,2")) (some "[1, 2]")
        (some "a,b\n1,2") =
      Except.ok ("file", "a,b\n1,2", some "d.csv") := by
  simp only [dispatch_chart_request]
  rw [if_pos (by decide)]

/-- C9 (amended): the data source is chosen by precedence
file > json_data > manual_data (a request supplying several fields is
accepted using the first present in that order); when all three are
absent the request fails with the client error "No data provided". -/
theorem dispatch_source_precedence (fname content : String)
    (j m : Option String)
    (hf : (py_endswith fname ".csv" || py_endswith fname ".json") = true)
    (j2 m2 : Option String) (hj : py_truthy_str j2 = true)
    (m3 : Option String) (hm : py_truthy_str m3 = true) :
    dispatch_chart_request none none none = Except.error "No data provided" ∧
    dispatch_chart_request (some (fname, content)) j m =
      Except.ok ("file", content, some fname) ∧
    dispatch_chart_request none j2 m2 = Except.ok ("json", j2.getD "", none) ∧
    dispatch_chart_request none none m3 =
      Except.ok ("manual", m3.getD "", none) := by
  refine ⟨rfl, ?_, ?_, ?_⟩
  · simp [dispatch_chart_request, hf]
  · simp [dispatch_chart_request, hj]
  · have hn : py_truthy_str none = false := rfl
    simp [dispatch_chart_request, hn, hm]

/-- C9 (witness for the amended theorem): instantiated with a CSV file
plus competing fields, a json_data request, and a manual_data request. -/
theorem dispatch_source_precedence_witness :
    dispatch_chart_request none none none = Except.error "No data provided" ∧
    dispatch_chart_request (some ("d.csv", "a,b\n1,2")) (some "[]") none =
      Except.ok ("file", "a,b\n1,2", some "d.csv") ∧
    dispatch_chart_request none (some "[]") (some "x,y\n1,2") =
      Except.ok ("json", "[]", none) ∧
    dispatch_chart_request none none (some "x,y\n1,2") =
      Except.ok ("manual", "x,y\n1,2", none) :=
  dispatch_source_precedence "d.csv" "a,b\n1,2" (some "[]") none (by decide)
    (some "[]") (some "x,y\n1,2") (by decide) (some "x,y\n1,2") (by decide)

/-- A collaborator outcome whose parsed response is the well-formed dict
{"chart_type": "bar", "x": "a", "y": "b"}. -/
def bar_config_outcome : LLMOutcome :=
  LLMOutcome.text (some (Json.obj
    [("chart_type", Json.str "bar"), ("x", Json.str "a"), ("y", Json.str "b")]))

/-- C7 (counterexample): with the explicit chart type being the empty
string — a string — the resolver does not return
{chart_type: "", x: columns[0], y: columns[1]}: the empty string is
falsy, `if chart_type:` is not taken, and the collaborator is consulted
(yielding its config "bar"/"a"/"b" here), so the result does depend on
the collaborator call. -/
theorem resolve_empty_explicit_type_not_honored :
    resolve_chart_config (some "") bar_config_outcome ["a", "b", "c"] ≠
      ⟨Json.str "", Json.str "a", Json.str "b"⟩ := by
  have h : resolve_chart_config (some "") bar_config_outcome ["a", "b", "c"] =
      ⟨Json.str "bar", Json.str "a", Json.str "b"⟩ := rfl
  rw [h]
  intro he
  have h2 : Json.str "bar" = Json.str "" := congrArg PyChartConfig.chart_type he
  exact absurd (Json.str.inj h2) (by decide)

/-- C7 (amended): for every NON-empty explicit_type string, the resolver
returns {chart_type: explicit_type, x: columns[0], y: columns[1]}
unconditionally, with no dependence on the query or the collaborator
outcome (a resolver call with an explicitly empty string falls back to
the collaborator path instead). -/
theorem resolve_nonempty_explicit_type (t : String) (ht : t ≠ "")
    (outcome outcome2 : LLMOutcome) (columns : List String)
    (hlen : 2 ≤ columns.length) :
    resolve_chart_config (some t) outcome columns =
      ⟨Json.str t, Json.str (columns.getD 0 ""), Json.str (columns.getD 1 "")⟩ ∧
    resolve_chart_config (some t) outcome columns =
      resolve_chart_config (some t) outcome2 columns := by
  have hp : py_truthy_str (some t) = true := by
    simp [py_truthy_str, ht]
  unfold resolve_chart_config
  rw [if_pos hp, if_pos hp]
  exact ⟨rfl, rfl⟩

/-- C7 (witness for the amended theorem): explicit_type "bar" with
columns ["a","b","c"] under two different collaborator outcomes. -/
theorem resolve_nonempty_explicit_type_witness :
    resolve_chart_config (some "bar") LLMOutcome.raised ["a", "b", "c"] =
      ⟨Json.str "bar", Json.str "a", Json.str "b"⟩ ∧
    resolve_chart_config (some "bar") LLMOutcome.raised ["a", "b", "c"] =
      resolve_chart_config (some "bar") bar_config_outcome ["a", "b", "c"] :=
  resolve_nonempty_explicit_type "bar" (by decide) LLMOutcome.raised
    bar_config_outcome ["a", "b", "c"] (by decide)

/-- The disjunction of fallback conditions of `interpret_query`, stated
on the model's collaborator outcome: the call raised; the response text
is not parseable JSON; the parsed value is not an object carrying all
three keys chart_type/x/y; or the x or y it carries is not among the
columns. -/
def fallback_triggered (outcome : LLMOutcome) (columns : List String) : Prop :=
  outcome = LLMOutcome.raised ∨
  outcome = LLMOutcome.text none ∨
  ∃ j, outcome = LLMOutcome.text (some j) ∧
    ((∀ fields, j ≠ Json.obj fields) ∨
     ∃ fields, j = Json.obj fields ∧
       (¬ (["chart_type", "x", "y"].all
            (fun k => (keysOf fields).contains k) = true) ∨
        ¬ ((jsonInStrList (dictLookup fields "x") columns
            && jsonInStrList (dictLookup fields "y") columns) = true)))

/-- C1: whenever the collaborator call fails, its response is not
parseable as JSON, the parsed value is not an object containing all of
chart_type/x/y, or the returned x or y is not among the columns, the
resolver returns exactly the default config
{chart_type: "scatter", x: columns[0], y: columns[1]} for column lists
with at least 2 columns; for a single-column list the default's y is
null (on an empty column list the source would raise before returning
any config). -/
theorem interpret_query_fallback (outcome : LLMOutcome) (columns : List String)
    (h : fallback_triggered outcome columns) :
    (2 ≤ columns.length →
      interpret_query outcome columns =
        ⟨Json.str "scatter", Json.str (columns.getD 0 ""),
          Json.str (columns.getD 1 "")⟩) ∧
    (columns.length = 1 → (interpret_query outcome columns).y = Json.null) := by
  have hdef : interpret_query outcome columns = default_chart_config columns := by
    rcases h with h | h | ⟨j, hj, hbad⟩
    · subst h; rfl
    · subst h; rfl
    · subst hj
      rcases hbad with hnotobj | ⟨fields, hf, hbad2⟩
      · cases j with
        | obj fields => exact absurd rfl (hnotobj fields)
        | null => rfl
        | bool b => rfl
        | num n => rfl
        | str s2 => rfl
        | arr a => rfl
      · subst hf
        rcases hbad2 with hk | hm
        · simp only [interpret_query]
          rw [if_neg hk]
        · simp only [interpret_query]
          by_cases hk2 : ["chart_type", "x", "y"].all
              (fun k => (keysOf fields).contains k) = true
          · rw [if_pos hk2, if_neg hm]
          · rw [if_neg hk2]
  refine ⟨fun h2 => ?_, fun h1 => ?_⟩
  · rw [hdef]
    unfold default_chart_config
    rw [if_pos h2]
  · rw [hdef]
    unfold default_chart_config
    rw [if_neg (by omega)]

/-- C1 (witness): a raised collaborator call with columns ["a","b"]
yields the default {scatter, "a", "b"}; with the single column ["a"]
and an incomplete parsed object (missing "y") the default's y is null. -/
theorem interpret_query_fallback_witness :
    interpret_query LLMOutcome.raised ["a", "b"] =
      ⟨Json.str "scatter", Json.str "a", Json.str "b"⟩ ∧
    (interpret_query (LLMOutcome.text (some (Json.obj
      [("chart_type", Json.str "bar"), ("x", Json.str "a")]))) ["a"]).y =
      Json.null :=
  ⟨(interpret_query_fallback LLMOutcome.raised ["a", "b"] (Or.inl rfl)).1
      (by decide),
   (interpret_query_fallback _ ["a"]
      (Or.inr (Or.inr ⟨_, rfl, Or.inr ⟨_, rfl, Or.inl (by decide)⟩⟩))).2 rfl⟩

theorem to_dict_list_lookup (df : DataFrame) (xs ys : String) :
    (to_dict_list df xs ys).lookup xs = some (col_values df xs) ∧
    (to_dict_list df xs ys).lookup ys = some (col_values df ys) := by
  unfold to_dict_list
  by_cases hxy : (xs == ys) = true
  · rw [if_pos hxy]
    have he : xs = ys := by simpa using hxy
    subst he
    constructor <;> simp [List.lookup]
  · rw [if_neg hxy]
    have hyx : (ys == xs) = false := by
      rw [beq_eq_false_iff_ne]
      intro he
      exact hxy (by simp [he])
    constructor
    · simp [List.lookup]
    · simp [List.lookup, hyx]

theorem attempt_save_eq_ok (df : DataFrame) (e : Option (List Json))
    (f : Option String) (u : Except String Unit) :
    attempt_save df e f u = Except.ok () := by
  unfold attempt_save
  by_cases h : py_truthy_list e = true
  · rw [if_pos h]
    cases save_embeddings df [e.getD []] f u <;> rfl
  · rw [if_neg h]

theorem generate_chart_ok_shape (df : DataFrame) (chart_type : Option String)
    (outcome : LLMOutcome) (px : Except String Json)
    (embedding : Option (List Json)) (up : Except String Unit)
    (filename : Option String) (r : ChartResponse)
    (h : generate_chart_core df chart_type outcome px embedding up filename =
      Except.ok r) :
    r.data.lookup r.x_axis = some (col_values (sanitize_df df) r.x_axis) ∧
    r.data.lookup r.y_axis = some (col_values (sanitize_df df) r.y_axis) ∧
    r.status = "success" := by
  unfold generate_chart_core at h
  split at h
  · exact Except.noConfusion h
  · split at h
    · split at h
      · split at h
        · exact Except.noConfusion h
        · split at h
          · exact Except.noConfusion h
          · injection h with h2
            subst h2
            exact ⟨(to_dict_list_lookup _ _ _).1, (to_dict_list_lookup _ _ _).2, rfl⟩
      · exact Except.noConfusion h
    · exact Except.noConfusion h

/-- C3 (counterexample): the successful request on the manual data
"a,b\n1,2\n3,4" with the fallback config returns a data object with no
key "x": `df[[x_axis, y_axis]].to_dict(orient="list")` is keyed by the
resolved column names, so data["a"] = [1, 3] and data["b"] = [2, 4]
while data["x"] does not exist. -/
theorem generate_chart_data_not_keyed_x_y :
    (generate_chart_core two_row_df none LLMOutcome.raised (Except.ok Json.null)
        none (Except.ok ()) none).map
      (fun r => (r.data.lookup "x", r.data.lookup "a", r.data.lookup "b",
        r.status)) =
    Except.ok (none, some [Json.num 1, Json.num 3],
      some [Json.num 2, Json.num 4], "success") := rfl

/-- C3 (amended): for every successful generate_chart request, the
returned data field is an object keyed by the resolved x-column and
y-column names, holding the values of those columns of the sanitized
table, and the status is "success". -/
theorem generate_chart_data_field (df : DataFrame) (chart_type : Option String)
    (outcome : LLMOutcome) (px : Except String Json)
    (embedding : Option (List Json)) (up : Except String Unit)
    (filename : Option String) (r : ChartResponse)
    (h : generate_chart_core df chart_type outcome px embedding up filename =
      Except.ok r) :
    r.data.lookup r.x_axis = some (col_values (sanitize_df df) r.x_axis) ∧
    r.data.lookup r.y_axis = some (col_values (sanitize_df df) r.y_axis) ∧
    r.status = "success" :=
  generate_chart_ok_shape df chart_type outcome px embedding up filename r h

/-- The response produced for the spec's end-to-end manual-data example
under the fallback config. -/
def sample_ok_response : ChartResponse :=
  ⟨Json.str "scatter", "a", "b",
    [("a", [Json.num 1, Json.num 3]), ("b", [Json.num 2, Json.num 4])],
    Json.null, "success"⟩

/-- C3 (witness for the amended theorem): instantiated on the manual-data
example request. -/
theorem generate_chart_data_field_witness :
    sample_ok_response.data.lookup sample_ok_response.x_axis =
      some (col_values (sanitize_df two_row_df) sample_ok_response.x_axis) ∧
    sample_ok_response.data.lookup sample_ok_response.y_axis =
      some (col_values (sanitize_df two_row_df) sample_ok_response.y_axis) ∧
    sample_ok_response.status = "success" :=
  generate_chart_data_field two_row_df none LLMOutcome.raised
    (Except.ok Json.null) none (Except.ok ()) none sample_ok_response rfl

/-- C8: the outcome of a generate_chart request never depends on the
embedding outcome (the embedding producer returns null instead of
raising) nor on the vector-store upsert outcome (the call site catches
and logs): the result is identical under any pair of enrichment
outcomes, and every successful result carries status "success" — no
enrichment exception surfaces to the caller. -/
theorem generate_chart_enrichment_non_fatal (df : DataFrame)
    (chart_type : Option String) (outcome : LLMOutcome)
    (px : Except String Json) (emb emb2 : Option (List Json))
    (up up2 : Except String Unit) (filename : Option String) :
    generate_chart_core df chart_type outcome px emb up filename =
      generate_chart_core df chart_type outcome px emb2 up2 filename ∧
    (∀ r, generate_chart_core df chart_type outcome px emb up filename =
        Except.ok r → r.status = "success") := by
  constructor
  · unfold generate_chart_core
    rw [attempt_save_eq_ok, attempt_save_eq_ok]
  · intro r h
    exact (generate_chart_ok_shape df chart_type outcome px emb up filename r h).2.2

/-- The response produced for the manual-data example with the explicit
chart type "bar". -/
def sample_bar_response : ChartResponse :=
  ⟨Json.str "bar", "a", "b",
    [("a", [Json.num 1, Json.num 3]), ("b", [Json.num 2, Json.num 4])],
    Json.null, "success"⟩

/-- C8 (witness): a request whose embedding is present but whose upsert
fails gives the same response as one with no embedding and a succeeding
upsert, and that response's status is "success". -/
theorem generate_chart_enrichment_non_fatal_witness :
    generate_chart_core two_row_df (some "bar") LLMOutcome.raised
        (Except.ok Json.null) (some [Json.num 7]) (Except.error "qdrant down")
        none =
      generate_chart_core two_row_df (some "bar") LLMOutcome.raised
        (Except.ok Json.null) none (Except.ok ()) none ∧
    sample_bar_response.status = "success" :=
  ⟨(generate_chart_enrichment_non_fatal two_row_df (some "bar") LLMOutcome.raised
      (Except.ok Json.null) (some [Json.num 7]) none (Except.error "qdrant down")
      (Except.ok ()) none).1,
   (generate_chart_enrichment_non_fatal two_row_df (some "bar") LLMOutcome.raised
      (Except.ok Json.null) (some [Json.num 7]) none (Except.error "qdrant down")
      (Except.ok ()) none).2 sample_bar_response rfl⟩
